import Mathlib

/-!
Verification of the AI-orchestrator generation pipeline
(`src/services/ai-orchestrator/`: `config.py`, `core_integration.py`,
`service.py`) against its natural-language specification.

The Python code is shallowly embedded: Python values that flow through the
pipeline (results of the external `json.loads`) are modelled by the
inductive type `JVal`; the external collaborators (the templating engine,
the filesystem probe for template files, the remote model client and the
wall clock) are bundled into an explicit `Env` record of functions, so
`generate`, `orchestrate` and the HTTP handler become total Lean
functions of the environment and their Python arguments.
-/

/-- A JSON value as produced by the external `json.loads` library call used
in `core_integration.py`.  JSON `null` maps to Python `None`; numbers keep
their source lexeme (no arithmetic is ever performed on them by the
pipeline). -/
inductive JVal where
  | null : JVal
  | bool (b : Bool) : JVal
  | num (lexeme : String) : JVal
  | str (s : String) : JVal
  | arr (items : List JVal) : JVal
  | obj (fields : List (String × JVal)) : JVal

/-- Whitespace characters skipped by the JSON grammar. -/
def isJsonWs (c : Char) : Bool :=
  c = ' ' || c = '\t' || c = '\n' || c = '\r'

/-- Drop leading JSON whitespace. -/
def skipWs : List Char → List Char
  | [] => []
  | c :: cs => if isJsonWs c then skipWs cs else c :: cs

/-- Value of a hexadecimal digit, if any. -/
def hexDigitVal (c : Char) : Option Nat :=
  if c.isDigit then some (c.toNat - 48)
  else if 'a' ≤ c && c ≤ 'f' then some (c.toNat - 87)
  else if 'A' ≤ c && c ≤ 'F' then some (c.toNat - 55)
  else none

/-- Longest prefix of decimal digits, and the rest. -/
def takeDigits : List Char → List Char × List Char
  | [] => ([], [])
  | c :: cs =>
    if c.isDigit then
      let (ds, rest) := takeDigits cs
      (c :: ds, rest)
    else ([], c :: cs)

/-- Fractional part of a JSON number (possibly empty), and the rest. -/
def parseFrac : List Char → Option (List Char × List Char)
  | '.' :: r =>
    match takeDigits r with
    | ([], _) => none
    | (ds, rest) => some ('.' :: ds, rest)
  | cs => some ([], cs)

/-- Exponent part of a JSON number (possibly empty), and the rest. -/
def parseExp : List Char → Option (List Char × List Char)
  | [] => some ([], [])
  | c :: r =>
    if c = 'e' || c = 'E' then
      let (sg, r2) :=
        match r with
        | s :: r3 => if s = '+' || s = '-' then ([s], r3) else (([] : List Char), s :: r3)
        | [] => ([], [])
      match takeDigits r2 with
      | ([], _) => none
      | (ds, rest) => some (c :: (sg ++ ds), rest)
    else some ([], c :: r)

/-- A JSON number: optional minus, digits, optional fraction and exponent.
Returns the lexeme and the rest of the input. -/
def parseNum (cs : List Char) : Option (List Char × List Char) :=
  let (sg, cs1) :=
    match cs with
    | '-' :: r => (['-'], r)
    | _ => (([] : List Char), cs)
  match takeDigits cs1 with
  | ([], _) => none
  | (ds, cs2) =>
    match parseFrac cs2 with
    | none => none
    | some (f, cs3) =>
      match parseExp cs3 with
      | none => none
      | some (e, cs4) => some (sg ++ ds ++ f ++ e, cs4)

/-- Body of a JSON string (after the opening quote): the decoded characters
and the input after the closing quote.  Fuel bounds the recursion. -/
def parseStrChars : Nat → List Char → Option (List Char × List Char)
  | 0, _ => none
  | _ + 1, [] => none
  | _ + 1, '"' :: rest => some ([], rest)
  | fuel + 1, '\\' :: e :: rest =>
    let cont (c : Char) (r : List Char) : Option (List Char × List Char) :=
      match parseStrChars fuel r with
      | none => none
      | some (s, r2) => some (c :: s, r2)
    match e with
    | '"' => cont '"' rest
    | '\\' => cont '\\' rest
    | '/' => cont '/' rest
    | 'n' => cont '\n' rest
    | 't' => cont '\t' rest
    | 'r' => cont '\r' rest
    | 'b' => cont (Char.ofNat 8) rest
    | 'f' => cont (Char.ofNat 12) rest
    | 'u' =>
      match rest with
      | a :: b :: c :: d :: rest2 =>
        match hexDigitVal a, hexDigitVal b, hexDigitVal c, hexDigitVal d with
        | some va, some vb, some vc, some vd =>
          cont (Char.ofNat (((va * 16 + vb) * 16 + vc) * 16 + vd)) rest2
        | _, _, _, _ => none
      | _ => none
    | _ => none
  | fuel + 1, c :: rest =>
    match parseStrChars fuel rest with
    | none => none
    | some (s, r2) => some (c :: s, r2)

mutual

/-- One JSON value, preceded by optional whitespace.  Fuel bounds the
recursion; `jsonLoads` supplies enough for its input. -/
def parseVal : Nat → List Char → Option (JVal × List Char)
  | 0, _ => none
  | fuel + 1, cs =>
    match skipWs cs with
    | '{' :: rest =>
      (match skipWs rest with
       | '}' :: r2 => some (.obj [], r2)
       | r2 =>
         match parseMembers fuel r2 with
         | none => none
         | some (fs, r3) => some (.obj fs, r3))
    | '[' :: rest =>
      (match skipWs rest with
       | ']' :: r2 => some (.arr [], r2)
       | r2 =>
         match parseItems fuel r2 with
         | none => none
         | some (xs, r3) => some (.arr xs, r3))
    | '"' :: rest =>
      (match parseStrChars (fuel + 1) rest with
       | none => none
       | some (s, r2) => some (.str (String.mk s), r2))
    | 'n' :: 'u' :: 'l' :: 'l' :: rest => some (.null, rest)
    | 't' :: 'r' :: 'u' :: 'e' :: rest => some (.bool true, rest)
    | 'f' :: 'a' :: 'l' :: 's' :: 'e' :: rest => some (.bool false, rest)
    | cs2 =>
      match parseNum cs2 with
      | none => none
      | some (lex, r2) => some (.num (String.mk lex), r2)

/-- Members of a nonempty JSON object, positioned at the first key. -/
def parseMembers : Nat → List Char → Option (List (String × JVal) × List Char)
  | 0, _ => none
  | fuel + 1, cs =>
    match cs with
    | '"' :: rest =>
      (match parseStrChars (fuel + 1) rest with
       | none => none
       | some (k, r1) =>
         match skipWs r1 with
         | ':' :: r2 =>
           (match parseVal fuel r2 with
            | none => none
            | some (v, r3) =>
              match skipWs r3 with
              | ',' :: r4 =>
                (match parseMembers fuel (skipWs r4) with
                 | none => none
                 | some (fs, r5) => some ((String.mk k, v) :: fs, r5))
              | '}' :: r4 => some ([(String.mk k, v)], r4)
              | _ => none)
         | _ => none)
    | _ => none

/-- Items of a nonempty JSON array, positioned at the first item. -/
def parseItems : Nat → List Char → Option (List JVal × List Char)
  | 0, _ => none
  | fuel + 1, cs =>
    match parseVal fuel cs with
    | none => none
    | some (v, r1) =>
      match skipWs r1 with
      | ',' :: r2 =>
        (match parseItems fuel r2 with
         | none => none
         | some (xs, r3) => some (v :: xs, r3))
      | ']' :: r2 => some ([v], r2)
      | _ => none

end

/-- Model of the external `json.loads`: parse the whole string as one JSON
value; `none` models a raised `json.JSONDecodeError`. -/
def jsonLoads (s : String) : Option JVal :=
  match parseVal (s.length + 2) s.toList with
  | none => none
  | some (v, rest) =>
    match skipWs rest with
    | [] => some v
    | _ => none

/-- Lookup in a dict built by `json.loads` from an ordered member list:
later duplicates override earlier ones, as in Python dict construction. -/
def dictGet (fields : List (String × JVal)) (k : String) : Option JVal :=
  fields.foldl (fun acc p => if p.1 = k then some p.2 else acc) none

/-- JSON `null` becomes Python `None`: collapse it into `Option`. -/
def pyNone : JVal → Option JVal
  | .null => none
  | v => some v

/-- Python `obj.get(k)`: `None` when the key is absent or maps to `null`. -/
def pyGet (fields : List (String × JVal)) (k : String) : Option JVal :=
  match dictGet fields k with
  | none => none
  | some v => pyNone v

/-- Python `obj.get(k, d)`: the stored value (with `null` as `None`) when
the key is present, the default `d` otherwise. -/
def pyGetD (fields : List (String × JVal)) (k : String) (d : JVal) : Option JVal :=
  match dictGet fields k with
  | none => pyNone d
  | some v => pyNone v

/-- Python type name of a `json.loads` result, as it appears in an
`AttributeError` message. -/
def pyTypeName : JVal → String
  | .null => "NoneType"
  | .bool _ => "bool"
  | .num lex =>
    if lex.toList.any (fun c => c = '.' || c = 'e' || c = 'E') then "float" else "int"
  | .str _ => "str"
  | .arr _ => "list"
  | .obj _ => "dict"

/-- Message of the `AttributeError` raised by `obj.get(...)` when
`json.loads` returned a non-dict value `v`. -/
def attrErrMsg (v : JVal) : String :=
  "\x27" ++ pyTypeName v ++ "\x27 object has no attribute \x27get\x27"

/-- Python truthiness of a `json.loads` value (`NoneType`, `bool`, number,
`str`, `list`, `dict`).  A number is falsy exactly when its mantissa digits
are all zero. -/
def pyTruthy : JVal → Bool
  | .null => false
  | .bool b => b
  | .num lex =>
    !(((lex.toList.takeWhile (fun c => c ≠ 'e' && c ≠ 'E')).filter Char.isDigit).all
        (fun c => c = '0'))
  | .str s => s ≠ ""
  | .arr xs => !xs.isEmpty
  | .obj fs => !fs.isEmpty

/-- Metadata values stored by the pipeline: elapsed seconds
(`processing_time`) or a string (`model_used`). -/
inductive MetaVal where
  | time (t : Rat) : MetaVal
  | str (s : String) : MetaVal

/-- `config.py` `IntegratedConfig`: the validated process settings.
Temperature is a real-valued setting, modelled as a rational. -/
structure IntegratedConfig where
  anthropic_api_key : String
  claude_model : String
  max_tokens : Int
  temperature : Rat
  templates_dir : String

/-- `config.py` `IntegratedConfig.validate`: raises `ValueError` when the
API key is falsy (empty); otherwise ensures the template directory exists
(a filesystem effect with no observable value) and returns. -/
def IntegratedConfig.validate (c : IntegratedConfig) : Except String Unit :=
  if c.anthropic_api_key = "" then .error "ANTHROPIC_API_KEY is required"
  else .ok ()

/-- Arguments of the single `claude.messages.create` network call made by
`generate` (model id, token budget, temperature, one user message). -/
structure InvokeArgs where
  model : String
  max_tokens : Int
  temperature : Rat
  messages : List (String × String)

/-- The invocation arguments `generate` builds from the configuration and
the rendered prompt. -/
def mkInvokeArgs (cfg : IntegratedConfig) (rendered : String) : InvokeArgs :=
  { model := cfg.claude_model
    max_tokens := cfg.max_tokens
    temperature := cfg.temperature
    messages := [("user", rendered)] }

/-- External collaborators of the pipeline, resolved once per process:
the POML import flag, the template-file existence probe, the external
template renderer (which may raise), the remote model client (returning
the reply content blocks or raising), and the elapsed wall-clock reading
used when a result record is built. -/
structure Env where
  hasPoml : Bool
  tplExists : String → Bool
  renderTpl : String → List (String × JVal) → Except String String
  invoke : InvokeArgs → Except String (List (Option String))
  elapsed : Rat

/-- `core_integration.py` `IntegratedResponse` dataclass. `response` holds
the Python value placed there by `generate` (a string in the plain-text
path, an arbitrary `json.loads` value in the structured path). -/
structure IntegratedResponse where
  success : Bool
  response : Option JVal := none
  error : Option String := none
  metadata : Option (List (String × MetaVal)) := none
  confidence_score : Option JVal := none
  reasoning_chain : Option JVal := none
  localized_elements : Option JVal := none

/-- `core_integration.py` `_render`: when a truthy template name is given,
POML is importable and the named template file exists, render it with the
variables bound; otherwise return the prompt unchanged.  The `Except`
propagates any failure raised by the external renderer. -/
def _render (env : Env) (prompt : String) (template_name : Option String)
    (vars : List (String × JVal)) : Except String String :=
  match template_name with
  | some n =>
    if n ≠ "" && env.hasPoml then
      if env.tplExists n then env.renderTpl n vars
      else .ok prompt
    else .ok prompt
  | none => .ok prompt

/-- Concatenation of the text of every content block in order; blocks
without a text attribute contribute `""` (`getattr(b, "text", "")`). -/
def concatText (blocks : List (Option String)) : String :=
  String.join (blocks.map (fun b => b.getD ""))

/-- `core_integration.py` `generate`: render the prompt, make one model
call, and normalize the reply.  The reply text is parsed as JSON: a JSON
object yields the structured result (fields read with `obj.get`); a
`JSONDecodeError` yields the plain-text result; any other raised failure —
a render failure, an invocation failure, or the `AttributeError` from
calling `.get` on a non-dict JSON value — is caught by the outer handler
and becomes a `success := false` record whose metadata holds only the
elapsed time. -/
def generate (env : Env) (cfg : IntegratedConfig) (prompt : String)
    (template_name : Option String := none)
    (vars : Option (List (String × JVal)) := none) : IntegratedResponse :=
  match _render env prompt template_name (vars.getD []) with
  | .error e =>
    { success := false, error := some e
      metadata := some [("processing_time", .time env.elapsed)] }
  | .ok rendered =>
    match env.invoke (mkInvokeArgs cfg rendered) with
    | .error e =>
      { success := false, error := some e
        metadata := some [("processing_time", .time env.elapsed)] }
    | .ok blocks =>
      let text := concatText blocks
      match jsonLoads text with
      | some (.obj fields) =>
        { success := true
          response := pyGetD fields "primary_response" (.str text)
          metadata := some [("processing_time", .time env.elapsed),
                            ("model_used", .str cfg.claude_model)]
          confidence_score := pyGet fields "confidence_score"
          reasoning_chain := pyGetD fields "reasoning_chain" (.arr [])
          localized_elements := pyGetD fields "localized_elements" (.arr []) }
      | some v =>
        { success := false, error := some (attrErrMsg v)
          metadata := some [("processing_time", .time env.elapsed)] }
      | none =>
        { success := true
          response := some (.str text)
          metadata := some [("processing_time", .time env.elapsed),
                            ("model_used", .str cfg.claude_model)] }

/-- `core_integration.py` `POMLClaudeToolTrainIntegration.__init__`:
configuration validation runs during construction, before the client is
created and before any request can be processed; a validation failure
propagates out of the constructor. -/
def integrationInit (cfg : IntegratedConfig) : Except String IntegratedConfig :=
  match cfg.validate with
  | .error e => .error e
  | .ok _ => .ok cfg

/-- `core_integration.py` `OrchestrationRequest` dataclass: the
compatibility request, with optional per-call `max_tokens` and
`temperature` override fields. -/
structure OrchestrationRequest where
  prompt : String
  context : Option JVal := none
  tools : Option (List String) := none
  max_tokens : Option Int := none
  temperature : Option Rat := none
  template_name : Option String := none
  vars : Option (List (String × JVal)) := none

/-- Token usage counters of the compatibility response. -/
structure Usage where
  input_tokens : Int
  output_tokens : Int

/-- `core_integration.py` `OrchestrationResponse` dataclass. -/
structure OrchestrationResponse where
  content : JVal
  usage : Usage
  model : String
  tools_used : List String
  metadata : List (String × MetaVal)
  confidence_score : Option JVal := none
  reasoning_chain : Option JVal := none

/-- Python `x or y` where `x` is an optional `json.loads` value and `y` a
string: the default replaces `None` and falsy values. -/
def pyOrStr (x : Option JVal) (y : String) : JVal :=
  match x with
  | none => .str y
  | some v => if pyTruthy v then v else .str y

/-- Python `x or {}` on the optional metadata dict. -/
def pyOrDict (x : Option (List (String × MetaVal))) : List (String × MetaVal) :=
  x.getD []

/-- The variable mapping `orchestrate` builds: the request variables with
`context` and `tools` merged in under reserved keys (overriding, as the
later entries of a Python dict display). -/
def mergedVars (req : OrchestrationRequest) : List (String × JVal) :=
  (req.vars.getD []) ++
    [("context", (req.context.getD .null)),
     ("tools", match req.tools with
               | none => .null
               | some ts => .arr (ts.map .str))]

/-- `core_integration.py` `POMLClaudeOrchestrator.orchestrate`: call
`generate` with the merged variables; on success re-shape the record into
an `OrchestrationResponse` (usage counters fixed at zero); on failure
raise `Exception(result.error or "Orchestration failed")`, modelled as
`Except.error`. -/
def orchestrate (env : Env) (cfg : IntegratedConfig)
    (req : OrchestrationRequest) : Except String OrchestrationResponse :=
  let result := generate env cfg req.prompt req.template_name (some (mergedVars req))
  if result.success then
    .ok { content := pyOrStr result.response ""
          usage := { input_tokens := 0, output_tokens := 0 }
          model := cfg.claude_model
          tools_used := req.tools.getD []
          metadata := pyOrDict result.metadata
          confidence_score := result.confidence_score
          reasoning_chain := result.reasoning_chain }
  else
    .error (match result.error with
            | some e => if e = "" then "Orchestration failed" else e
            | none => "Orchestration failed")

/-- `service.py` `GeneratePayload`: the body accepted by the HTTP
endpoints. -/
structure GeneratePayload where
  prompt : String
  template_name : Option String := none
  vars : Option (List (String × JVal)) := none

/-- Shape of the JSON record returned by the HTTP `/orchestrate`
endpoint; `content` is `res.response` verbatim, so it can be absent. -/
structure HttpOrchestrateResponse where
  content : Option JVal
  usage : Usage
  model : String
  tools_used : List String
  metadata : List (String × MetaVal)
  confidence_score : Option JVal
  reasoning_chain : Option JVal

/-- `service.py` `/orchestrate` handler: calls `generate` directly (not
the `orchestrate` method) and re-packages whatever record comes back —
`content` is `res.response` (absent on failure), usage counters are zero,
`tools_used` is empty, metadata is `res.metadata or {}`.  It is a total
function: no failure is ever signalled to the HTTP caller. -/
def serviceOrchestrate (env : Env) (cfg : IntegratedConfig)
    (p : GeneratePayload) : HttpOrchestrateResponse :=
  let res := generate env cfg p.prompt p.template_name p.vars
  { content := res.response
    usage := { input_tokens := 0, output_tokens := 0 }
    model := cfg.claude_model
    tools_used := []
    metadata := pyOrDict res.metadata
    confidence_score := res.confidence_score
    reasoning_chain := res.reasoning_chain }

/-! ## Concrete fixtures used by witnesses and counterexamples -/

/-- A validated configuration used by concrete witnesses. -/
def cfgEx : IntegratedConfig :=
  { anthropic_api_key := "sk-test"
    claude_model := "claude-4"
    max_tokens := 100000
    temperature := 7/10
    templates_dir := "./templates" }

/-- An environment whose model call succeeds with the given content
blocks (no POML, no template files). -/
def envReply (blocks : List (Option String)) : Env :=
  { hasPoml := false
    tplExists := fun _ => false
    renderTpl := fun _ _ => .ok ""
    invoke := fun _ => .ok blocks
    elapsed := 1 }

/-- An environment whose model call raises with the given message. -/
def envDown (msg : String) : Env :=
  { hasPoml := false
    tplExists := fun _ => false
    renderTpl := fun _ _ => .ok ""
    invoke := fun _ => .error msg
    elapsed := 1 }

/-! ## Shape lemma: the three return paths of `generate` -/

/-- Every `generate` call takes exactly one of the three return paths of
`core_integration.py`: the caught-failure record (metadata holding only
the elapsed time), the plain-text record, or the structured record built
from the parsed JSON object.  Helper for the claim theorems below. -/
theorem generate_cases (env : Env) (cfg : IntegratedConfig) (prompt : String)
    (tn : Option String) (vars : Option (List (String × JVal))) :
    (∃ e, generate env cfg prompt tn vars =
        { success := false, error := some e,
          metadata := some [("processing_time", MetaVal.time env.elapsed)] }) ∨
    (∃ rendered blocks,
      _render env prompt tn (vars.getD []) = .ok rendered ∧
      env.invoke (mkInvokeArgs cfg rendered) = .ok blocks ∧
      ((jsonLoads (concatText blocks) = none ∧
        generate env cfg prompt tn vars =
          { success := true, response := some (.str (concatText blocks)),
            metadata := some [("processing_time", MetaVal.time env.elapsed),
                              ("model_used", MetaVal.str cfg.claude_model)] }) ∨
       (∃ fields, jsonLoads (concatText blocks) = some (.obj fields) ∧
        generate env cfg prompt tn vars =
          { success := true,
            response := pyGetD fields "primary_response" (.str (concatText blocks)),
            metadata := some [("processing_time", MetaVal.time env.elapsed),
                              ("model_used", MetaVal.str cfg.claude_model)],
            confidence_score := pyGet fields "confidence_score",
            reasoning_chain := pyGetD fields "reasoning_chain" (.arr []),
            localized_elements := pyGetD fields "localized_elements" (.arr []) }))) := by
  cases hR : _render env prompt tn (vars.getD []) with
  | error e => exact Or.inl ⟨e, by unfold generate; simp only [hR]⟩
  | ok rendered =>
    cases hI : env.invoke (mkInvokeArgs cfg rendered) with
    | error e => exact Or.inl ⟨e, by unfold generate; simp only [hR, hI]⟩
    | ok blocks =>
      cases hP : jsonLoads (concatText blocks) with
      | none =>
        exact Or.inr ⟨rendered, blocks, rfl, hI,
          Or.inl ⟨hP, by unfold generate; simp only [hR, hI, hP]⟩⟩
      | some v =>
        cases v with
        | obj fields =>
          exact Or.inr ⟨rendered, blocks, rfl, hI,
            Or.inr ⟨fields, hP, by unfold generate; simp only [hR, hI, hP]⟩⟩
        | null => exact Or.inl ⟨attrErrMsg .null, by unfold generate; simp only [hR, hI, hP]⟩
        | bool b =>
          exact Or.inl ⟨attrErrMsg (.bool b), by unfold generate; simp only [hR, hI, hP]⟩
        | num l =>
          exact Or.inl ⟨attrErrMsg (.num l), by unfold generate; simp only [hR, hI, hP]⟩
        | str s =>
          exact Or.inl ⟨attrErrMsg (.str s), by unfold generate; simp only [hR, hI, hP]⟩
        | arr xs =>
          exact Or.inl ⟨attrErrMsg (.arr xs), by unfold generate; simp only [hR, hI, hP]⟩

/-! ## Claim theorems -/

/-- Claim C1: for every raw model reply whose concatenated block text
parses as a JSON object, `generate` returns `success = true`; the text is
the `primary_response` field read with `obj.get` (the raw concatenation
when the key is absent), and confidence score, reasoning steps and
localized elements are read from the matching fields, defaulting to
absent / empty. -/
theorem generate_structured_reply (env : Env) (cfg : IntegratedConfig)
    (prompt : String) (tn : Option String) (vars : Option (List (String × JVal)))
    (rendered : String) (blocks : List (Option String)) (fields : List (String × JVal))
    (hR : _render env prompt tn (vars.getD []) = .ok rendered)
    (hI : env.invoke (mkInvokeArgs cfg rendered) = .ok blocks)
    (hP : jsonLoads (concatText blocks) = some (.obj fields)) :
    generate env cfg prompt tn vars =
      { success := true,
        response := pyGetD fields "primary_response" (.str (concatText blocks)),
        metadata := some [("processing_time", MetaVal.time env.elapsed),
                          ("model_used", MetaVal.str cfg.claude_model)],
        confidence_score := pyGet fields "confidence_score",
        reasoning_chain := pyGetD fields "reasoning_chain" (.arr []),
        localized_elements := pyGetD fields "localized_elements" (.arr []) } ∧
    (dictGet fields "primary_response" = none →
      (generate env cfg prompt tn vars).response = some (.str (concatText blocks))) ∧
    (∀ v, dictGet fields "primary_response" = some v →
      (generate env cfg prompt tn vars).response = pyNone v) := by
  have hgen : generate env cfg prompt tn vars =
      { success := true,
        response := pyGetD fields "primary_response" (.str (concatText blocks)),
        metadata := some [("processing_time", MetaVal.time env.elapsed),
                          ("model_used", MetaVal.str cfg.claude_model)],
        confidence_score := pyGet fields "confidence_score",
        reasoning_chain := pyGetD fields "reasoning_chain" (.arr []),
        localized_elements := pyGetD fields "localized_elements" (.arr []) } := by
    unfold generate
    simp only [hR, hI, hP]
  refine ⟨hgen, fun hD => ?_, fun v hD => ?_⟩
  · rw [hgen]
    dsimp only
    unfold pyGetD
    rw [hD]
    exact rfl
  · rw [hgen]
    dsimp only
    unfold pyGetD
    rw [hD]

/-- Content blocks of the structured-reply witness. -/
def blocksC1 : List (Option String) :=
  [some "\x7b\"primary_response\":\"ok\",\"confidence_score\":0.9\x7d"]

/-- Witness for `generate_structured_reply` at the spec scenario reply
`{"primary_response":"ok","confidence_score":0.9}`. -/
theorem generate_structured_reply_witness :
    generate (envReply blocksC1) cfgEx "Return JSON" none none =
      { success := true,
        response := some (.str "ok"),
        metadata := some [("processing_time", MetaVal.time 1),
                          ("model_used", MetaVal.str "claude-4")],
        confidence_score := some (.num "0.9"),
        reasoning_chain := some (.arr []),
        localized_elements := some (.arr []) } :=
  (generate_structured_reply (envReply blocksC1) cfgEx "Return JSON" none none
    "Return JSON" blocksC1
    [("primary_response", .str "ok"), ("confidence_score", .num "0.9")]
    rfl rfl rfl).1

/-- Content blocks whose concatenation is JSON but not a JSON object. -/
def blocksNum : List (Option String) := [some "42"]

/-- Counterexample to claim C2 as stated: the reply text `"42"` fails
JSON-object parsing (it parses as the number `42`, not an object), yet
`generate` does not return `success = true` with the raw text — the
`obj.get` call on the parsed integer raises `AttributeError`, which the
outer handler converts into a `success = false` record. -/
theorem generate_nonobject_json_cex :
    jsonLoads (concatText blocksNum) = some (.num "42") ∧
    generate (envReply blocksNum) cfgEx "p" none none =
      { success := false,
        error := some "\x27int\x27 object has no attribute \x27get\x27",
        metadata := some [("processing_time", MetaVal.time 1)] } :=
  ⟨rfl, rfl⟩

/-- Claim C2 (amended): for every raw model reply whose concatenated
block text raises a JSON decode error (is not parseable as JSON at all),
`generate` silently returns `success = true` with the raw concatenation
as the text and confidence score, reasoning steps and localized elements
absent.  (Text that parses as JSON but not as an object instead yields a
`success = false` record, per `generate_nonobject_json_cex`.) -/
theorem generate_plaintext_fallback (env : Env) (cfg : IntegratedConfig)
    (prompt : String) (tn : Option String) (vars : Option (List (String × JVal)))
    (rendered : String) (blocks : List (Option String))
    (hR : _render env prompt tn (vars.getD []) = .ok rendered)
    (hI : env.invoke (mkInvokeArgs cfg rendered) = .ok blocks)
    (hP : jsonLoads (concatText blocks) = none) :
    generate env cfg prompt tn vars =
      { success := true,
        response := some (.str (concatText blocks)),
        metadata := some [("processing_time", MetaVal.time env.elapsed),
                          ("model_used", MetaVal.str cfg.claude_model)] } := by
  unfold generate
  simp only [hR, hI, hP]

/-- Witness for `generate_plaintext_fallback` at the spec scenario reply
`[{text:"Hello!"}]`. -/
theorem generate_plaintext_fallback_witness :
    generate (envReply [some "Hello!"]) cfgEx "Say hello" none none =
      { success := true,
        response := some (.str "Hello!"),
        metadata := some [("processing_time", MetaVal.time 1),
                          ("model_used", MetaVal.str "claude-4")] } :=
  generate_plaintext_fallback (envReply [some "Hello!"]) cfgEx "Say hello" none none
    "Say hello" [some "Hello!"] rfl rfl rfl

/-- Claim C3: every propagated invocation failure produces
`success = false`, the failure description as the error, no text, and
metadata holding only the elapsed processing time (no model used
identifier). -/
theorem generate_invocation_failure (env : Env) (cfg : IntegratedConfig)
    (prompt : String) (tn : Option String) (vars : Option (List (String × JVal)))
    (rendered : String) (msg : String)
    (hR : _render env prompt tn (vars.getD []) = .ok rendered)
    (hI : env.invoke (mkInvokeArgs cfg rendered) = .error msg)
    (hmsg : msg ≠ "") :
    generate env cfg prompt tn vars =
      { success := false, error := some msg,
        metadata := some [("processing_time", MetaVal.time env.elapsed)] } ∧
    msg ≠ "" := by
  refine ⟨?_, hmsg⟩
  unfold generate
  simp only [hR, hI]

/-- Witness for `generate_invocation_failure` at a concrete
authentication failure. -/
theorem generate_invocation_failure_witness :
    generate (envDown "authentication failed") cfgEx "p" none none =
      { success := false, error := some "authentication failed",
        metadata := some [("processing_time", MetaVal.time 1)] } ∧
    "authentication failed" ≠ "" :=
  generate_invocation_failure (envDown "authentication failed") cfgEx "p" none none
    "p" "authentication failed" rfl rfl (by decide)

/-- Content blocks whose concatenation maps `primary_response` to `null`. -/
def blocksNullPR : List (Option String) := [some "\x7b\"primary_response\": null\x7d"]

/-- Counterexample to claim C4 as stated: on the reply
`{"primary_response": null}` the result has `success = true` but neither
`text` nor `error` populated — `obj.get("primary_response", text)`
returns the stored `None`. -/
theorem response_error_exclusivity_cex :
    (generate (envReply blocksNullPR) cfgEx "p" none none).success = true ∧
    (generate (envReply blocksNullPR) cfgEx "p" none none).response = none ∧
    (generate (envReply blocksNullPR) cfgEx "p" none none).error = none :=
  ⟨rfl, rfl, rfl⟩

/-- Claim C4 (amended): on `success = false` the error is populated and
the text absent; on `success = true` the error is absent and the text is
populated — except in the one corner where the reply parsed as a JSON
object whose `primary_response` key holds `null`, in which case the text
is absent as well. -/
theorem response_error_exclusivity (env : Env) (cfg : IntegratedConfig)
    (prompt : String) (tn : Option String) (vars : Option (List (String × JVal))) :
    ((generate env cfg prompt tn vars).success = false →
      (generate env cfg prompt tn vars).response = none ∧
      (generate env cfg prompt tn vars).error ≠ none) ∧
    ((generate env cfg prompt tn vars).success = true →
      (generate env cfg prompt tn vars).error = none ∧
      ((generate env cfg prompt tn vars).response ≠ none ∨
        ∃ rendered blocks fields,
          _render env prompt tn (vars.getD []) = .ok rendered ∧
          env.invoke (mkInvokeArgs cfg rendered) = .ok blocks ∧
          jsonLoads (concatText blocks) = some (.obj fields) ∧
          dictGet fields "primary_response" = some .null)) := by
  rcases generate_cases env cfg prompt tn vars with ⟨e, hgen⟩ |
    ⟨rendered, blocks, hR, hI, ⟨hP, hgen⟩ | ⟨fields, hP, hgen⟩⟩
  · rw [hgen]
    exact ⟨fun _ => ⟨rfl, Option.some_ne_none e⟩, fun h => Bool.noConfusion h⟩
  · rw [hgen]
    exact ⟨fun h => Bool.noConfusion h,
      fun _ => ⟨rfl, Or.inl (Option.some_ne_none _)⟩⟩
  · rw [hgen]
    refine ⟨fun h => Bool.noConfusion h, fun _ => ⟨rfl, ?_⟩⟩
    dsimp only
    cases hD : dictGet fields "primary_response" with
    | none =>
      left
      unfold pyGetD
      rw [hD]
      exact Option.some_ne_none _
    | some w =>
      cases w with
      | null => exact Or.inr ⟨rendered, blocks, fields, hR, hI, hP, hD⟩
      | bool b =>
        left
        unfold pyGetD
        rw [hD]
        exact Option.some_ne_none _
      | num l =>
        left
        unfold pyGetD
        rw [hD]
        exact Option.some_ne_none _
      | str s =>
        left
        unfold pyGetD
        rw [hD]
        exact Option.some_ne_none _
      | arr xs =>
        left
        unfold pyGetD
        rw [hD]
        exact Option.some_ne_none _
      | obj fs =>
        left
        unfold pyGetD
        rw [hD]
        exact Option.some_ne_none _

/-- Witness for `response_error_exclusivity` at a concrete invocation
failure. -/
theorem response_error_exclusivity_witness :
    (generate (envDown "boom") cfgEx "p" none none).response = none ∧
    (generate (envDown "boom") cfgEx "p" none none).error ≠ none :=
  (response_error_exclusivity (envDown "boom") cfgEx "p" none none).1 rfl

/-- Claim C5: whenever the template name is absent (or empty, which
Python treats as absent), the templating capability is unavailable, or
the named template file does not exist, `_render` returns the prompt
unchanged and never signals an error. -/
theorem render_fallback_identity (env : Env) (prompt : String)
    (tn : Option String) (vars : List (String × JVal))
    (h : tn = none ∨ tn = some "" ∨ env.hasPoml = false ∨
         (∀ n, tn = some n → env.tplExists n = false)) :
    _render env prompt tn vars = .ok prompt := by
  unfold _render
  rcases h with h | h | h | h
  · rw [h]
  · rw [h]
    simp
  · cases tn with
    | none => rfl
    | some n => simp [h]
  · cases tn with
    | none => rfl
    | some n => simp [h n rfl]

/-- Witness for `render_fallback_identity`: POML unavailable and the
named template file missing. -/
theorem render_fallback_identity_witness :
    _render (envReply []) "Say hello" (some "missing") [] = .ok "Say hello" :=
  render_fallback_identity (envReply []) "Say hello" (some "missing") []
    (Or.inr (Or.inr (Or.inl rfl)))

/-- Claim C6: `generate` always returns a result record — the embedding
is a total function, reflecting the catch-all exception handler — and
every failed call is reported as `success = false` with an error
description rather than a propagated exception. -/
theorem generate_always_returns (env : Env) (cfg : IntegratedConfig)
    (prompt : String) (tn : Option String) (vars : Option (List (String × JVal))) :
    (generate env cfg prompt tn vars).success = true ∨
    ((generate env cfg prompt tn vars).success = false ∧
      (generate env cfg prompt tn vars).error ≠ none) := by
  rcases generate_cases env cfg prompt tn vars with ⟨e, hgen⟩ |
    ⟨rendered, blocks, hR, hI, ⟨hP, hgen⟩ | ⟨fields, hP, hgen⟩⟩
  · exact Or.inr ⟨by rw [hgen], by rw [hgen]; exact Option.some_ne_none e⟩
  · exact Or.inl (by rw [hgen])
  · exact Or.inl (by rw [hgen])

/-- Claim C7: whenever the underlying `generate` call fails, the
compatibility entry point `orchestrate` signals failure to its caller
(models the `raise`) instead of returning an `OrchestrationResponse`. -/
theorem orchestrate_raises_on_failure (env : Env) (cfg : IntegratedConfig)
    (req : OrchestrationRequest)
    (h : (generate env cfg req.prompt req.template_name (some (mergedVars req))).success
          = false) :
    ∃ msg, orchestrate env cfg req = .error msg := by
  unfold orchestrate
  simp [h]

/-- Witness for `orchestrate_raises_on_failure` at a concrete invocation
failure. -/
theorem orchestrate_raises_on_failure_witness :
    ∃ msg, orchestrate (envDown "boom") cfgEx { prompt := "p" } = .error msg :=
  orchestrate_raises_on_failure (envDown "boom") cfgEx { prompt := "p" } rfl

/-- Claim C8: constructing the orchestrator over a configuration whose
API key is empty (the default when the environment variable is missing)
fails during construction — `validate` raises before the client exists
and before any request can be processed. -/
theorem init_empty_key_raises (cfg : IntegratedConfig)
    (h : cfg.anthropic_api_key = "") :
    integrationInit cfg = .error "ANTHROPIC_API_KEY is required" := by
  unfold integrationInit IntegratedConfig.validate
  rw [h]
  simp

/-- Witness for `init_empty_key_raises` at a concrete empty-key
configuration. -/
theorem init_empty_key_raises_witness :
    integrationInit
      { anthropic_api_key := "", claude_model := "claude-4",
        max_tokens := 100000, temperature := 7/10,
        templates_dir := "./templates" } =
      .error "ANTHROPIC_API_KEY is required" :=
  init_empty_key_raises _ rfl

/-- Claim C9: `orchestrate` accepts per-call `max_tokens` and
`temperature` override fields but ignores them — its result is invariant
under any change of those fields, and the single invocation always uses
the configured token budget and temperature. -/
theorem orchestrate_ignores_overrides (env : Env) (cfg : IntegratedConfig)
    (req : OrchestrationRequest) (mt mt' : Option Int) (tp tp' : Option Rat)
    (rendered : String) :
    orchestrate env cfg { req with max_tokens := mt, temperature := tp } =
      orchestrate env cfg { req with max_tokens := mt', temperature := tp' } ∧
    (mkInvokeArgs cfg rendered).max_tokens = cfg.max_tokens ∧
    (mkInvokeArgs cfg rendered).temperature = cfg.temperature :=
  ⟨rfl, rfl, rfl⟩

/-- Claim C10: the HTTP `/orchestrate` handler calls `generate` directly
and never signals failure: when generation fails it still returns a
record — content absent, zero usage counters, empty tools, and the
failure metadata (elapsed time only). -/
theorem service_orchestrate_never_raises (env : Env) (cfg : IntegratedConfig)
    (p : GeneratePayload)
    (h : (generate env cfg p.prompt p.template_name p.vars).success = false) :
    serviceOrchestrate env cfg p =
      { content := none,
        usage := { input_tokens := 0, output_tokens := 0 },
        model := cfg.claude_model,
        tools_used := [],
        metadata := [("processing_time", MetaVal.time env.elapsed)],
        confidence_score := none,
        reasoning_chain := none } := by
  rcases generate_cases env cfg p.prompt p.template_name p.vars with ⟨e, hgen⟩ |
    ⟨rendered, blocks, hR, hI, ⟨hP, hgen⟩ | ⟨fields, hP, hgen⟩⟩
  · unfold serviceOrchestrate
    rw [hgen]
    exact rfl
  · rw [hgen] at h
    exact Bool.noConfusion h
  · rw [hgen] at h
    exact Bool.noConfusion h

/-- Witness for `service_orchestrate_never_raises` at a concrete
invocation failure. -/
theorem service_orchestrate_never_raises_witness :
    serviceOrchestrate (envDown "boom") cfgEx { prompt := "p" } =
      { content := none,
        usage := { input_tokens := 0, output_tokens := 0 },
        model := "claude-4",
        tools_used := [],
        metadata := [("processing_time", MetaVal.time 1)],
        confidence_score := none,
        reasoning_chain := none } :=
  service_orchestrate_never_raises (envDown "boom") cfgEx { prompt := "p" } rfl
